import Mathlib

/-!
Shallow embedding of the attention-inference core of the
online-student-attentive-system repository:
`advanced_attention_detector.py` (class `AdvancedAttentionDetector`) and
`audio_processor.py` (class `AudioProcessor`).

Numeric values are modelled as rationals (`ℚ`); pixel coordinates and box
dimensions are naturals, matching the integer bounding boxes produced by the
cascade detector.  The OpenCV cascade calls, the grayscale pixel data and the
`atan2`-based roll angle are external measurements: they enter the model as
explicit inputs (the list of detected eye boxes, the face-region dimensions,
the mouth aspect ratio and the roll value), and everything computed from them
in the Python source is embedded faithfully.  The mutable `deque` histories of
the detector become an explicit `DetectorState` record threaded through the
operations.
-/

/-- A detected eye bounding box `(x, y, w, h)` as returned by
`eye_cascade.detectMultiScale` (all entries are nonnegative integers). -/
structure EyeBox where
  x : ℕ
  y : ℕ
  bw : ℕ
  bh : ℕ
deriving DecidableEq, Repr

/-- The dictionary returned by `detect_eyes_detailed`
(`advanced_attention_detector.py` lines 150-174). -/
structure EyesData where
  left_eye : Option EyeBox
  right_eye : Option EyeBox
  left_ear : ℚ
  right_ear : ℚ
  left_open : Bool
  right_open : Bool
  avg_ear : ℚ
  gaze_direction : String
  eyes_detected : ℕ
deriving DecidableEq, Repr

/-- Head pose record `{'pitch': .., 'yaw': .., 'roll': ..}` in degrees. -/
structure HeadPose where
  pitch : ℚ
  yaw : ℚ
  roll : ℚ
deriving DecidableEq, Repr

/-- One entry of `emotions_data`: the per-face record produced by the emotion
detector; only the `'emotion'` label and the `'bbox'` are read by the
attention pipeline. -/
structure EmotionRec where
  emotion : String
  bbox : ℕ × ℕ × ℕ × ℕ
deriving DecidableEq, Repr

/-- The history deques created in `AdvancedAttentionDetector.__init__`
(lines 14-19): `blink_history` (maxlen 30), `eye_aspect_ratio_history`
(maxlen 30), `head_pose_history` (maxlen 60), `mouth_history` (maxlen 30),
`emotion_history` (maxlen 90). -/
structure DetectorState where
  blink_history : List ℕ
  eye_aspect_ratio_history : List ℚ
  head_pose_history : List HeadPose
  mouth_history : List ℚ
  emotion_history : List String
deriving DecidableEq, Repr

/-- The fresh state built by `__init__`: every history deque empty. -/
def initState : DetectorState :=
  { blink_history := []
    eye_aspect_ratio_history := []
    head_pose_history := []
    mouth_history := []
    emotion_history := [] }

/-- `deque(maxlen cap).append a` on current contents `l`: the new element
goes to the right end and leftmost elements are evicted so that at most
`cap` remain. -/
def dappend {α : Type} (cap : ℕ) (l : List α) (a : α) : List α :=
  (l ++ [a]).drop ((l ++ [a]).length - cap)

/-- `min(h / (w * 2.0), 0.4)`: the bounding-box eye-aspect-ratio heuristic
used in `detect_eyes_detailed` (lines 99, 101, 108, 111). -/
def bboxEar (bw bh : ℕ) : ℚ :=
  min ((bh : ℚ) / ((bw : ℚ) * 2)) (2/5)

/-- Embeds `calculate_eye_aspect_ratio` (lines 38-54).  The source computes
three Euclidean distances with `np.linalg.norm`:
`vertical_1 = ‖eye_points[1] - eye_points[5]‖`,
`vertical_2 = ‖eye_points[2] - eye_points[4]‖` and
`horizontal = ‖eye_points[0] - eye_points[3]‖`.  The model takes the number
of landmark points and these three (necessarily nonnegative) distances as
arguments; every nonnegative triple is realized by some point set. -/
def calculate_eye_aspect_ratio (numPoints : ℕ) (vertical_1 vertical_2 horizontal : ℚ) : ℚ :=
  if numPoints < 6 then 3/10
  else if horizontal = 0 then 3/10
  else (vertical_1 + vertical_2) / (2 * horizontal)

/-- Stable insertion of a box into a list sorted by `x`; used to model
Python's stable `sorted(eyes, key := lambda x : x[0])` (line 85). -/
def insertByX (e : EyeBox) : List EyeBox → List EyeBox
  | [] => [e]
  | b :: bs => if e.x ≤ b.x then e :: b :: bs else b :: insertByX e bs

/-- Stable sort of eye boxes by x-coordinate (Python `sorted` with key
`x[0]` is stable; insertion sort is the same stable permutation). -/
def sortByX : List EyeBox → List EyeBox
  | [] => []
  | e :: es => insertByX e (sortByX es)

/-- Intermediate result of lines 78-111 of `detect_eyes_detailed`: the
assignment of `left_eye` / `right_eye` and the per-eye aspect ratios. -/
structure EyesPre where
  left_eye : Option EyeBox
  right_eye : Option EyeBox
  left_ear : ℚ
  right_ear : ℚ
deriving DecidableEq, Repr

/-- The per-eye EAR of the two-eye branch (lines 98-101): the bounding-box
heuristic when the box has positive width and height, else the `0.3`
default. -/
def earTwoEyes (b : EyeBox) : ℚ :=
  if 0 < b.bw ∧ 0 < b.bh then bboxEar b.bw b.bh else 3/10

/-- The per-eye EAR of the one-eye branch (lines 108, 111): the
bounding-box heuristic when the box has positive width, else `0.3`. -/
def earOneEye (b : EyeBox) : ℚ :=
  if 0 < b.bw then bboxEar b.bw b.bh else 3/10

/-- Lines 78-111 of `detect_eyes_detailed`: with two or more detected eyes,
sort by x and take the first two, computing each EAR with the bounding-box
heuristic; with exactly one eye, assign it to the left or right by
comparing its x to half the face width; with none, keep the defaults. -/
def eyesPre (w : ℕ) (eyes : List EyeBox) : EyesPre :=
  if 2 ≤ eyes.length then
    { left_eye := some ((sortByX eyes).getD 0 ⟨0, 0, 0, 0⟩)
      right_eye := some ((sortByX eyes).getD 1 ⟨0, 0, 0, 0⟩)
      left_ear := earTwoEyes ((sortByX eyes).getD 0 ⟨0, 0, 0, 0⟩)
      right_ear := earTwoEyes ((sortByX eyes).getD 1 ⟨0, 0, 0, 0⟩) }
  else if eyes.length = 1 then
    if ((eyes.getD 0 ⟨0, 0, 0, 0⟩).x : ℚ) < (w : ℚ) / 2 then
      { left_eye := some (eyes.getD 0 ⟨0, 0, 0, 0⟩)
        right_eye := none
        left_ear := earOneEye (eyes.getD 0 ⟨0, 0, 0, 0⟩)
        right_ear := 3/10 }
    else
      { left_eye := none
        right_eye := some (eyes.getD 0 ⟨0, 0, 0, 0⟩)
        left_ear := 3/10
        right_ear := earOneEye (eyes.getD 0 ⟨0, 0, 0, 0⟩) }
  else
    { left_eye := none, right_eye := none, left_ear := 3/10, right_ear := 3/10 }

/-- The error record returned by the `except` branch of
`detect_eyes_detailed` (lines 161-174): closed eyes as the safe default. -/
def errorEyesData : EyesData :=
  { left_eye := none
    right_eye := none
    left_ear := 3/20
    right_ear := 3/20
    left_open := false
    right_open := false
    avg_ear := 3/20
    gaze_direction := "unknown"
    eyes_detected := 0 }

/-- Lines 133-148 of `detect_eyes_detailed`: gaze direction from the eye
centers (integer centers `x + w // 2`) relative to the face center.  When
both eyes are present and the face width is `0`, the source divides by
`face_center_x = 0.0`, raising `ZeroDivisionError`, so the whole call takes
the `except` branch: that case is reported as `none` here. -/
def gazeOf (w : ℕ) (pre : EyesPre) : Option String :=
  match pre.left_eye, pre.right_eye with
  | some le, some re =>
    if w = 0 then none
    else
      let left_center_x : ℕ := le.x + le.bw / 2
      let right_center_x : ℕ := re.x + re.bw / 2
      let eye_center_x : ℚ := ((left_center_x : ℚ) + (right_center_x : ℚ)) / 2
      let face_center_x : ℚ := (w : ℚ) / 2
      let offset_ratio : ℚ := (eye_center_x - face_center_x) / face_center_x
      some (if offset_ratio > 3/10 then "right"
            else if offset_ratio < -(3/10) then "left"
            else "center")
  | _, _ => some "center"

/-- The low-EAR override of lines 119-122: with at least one detected eye
and either EAR below `0.15`, both eyes are reported closed. -/
def lowEarOverride (eyesLen : ℕ) (pre : EyesPre) : Bool :=
  decide (1 ≤ eyesLen) &&
    (decide (pre.left_ear < 3/20) || decide (pre.right_ear < 3/20))

/-- Lines 113-160 of `detect_eyes_detailed`: the open-flags against the
open threshold `EAR_THRESHOLD * 1.2` (line 115), the low-EAR override
(lines 120-122), the average EAR (line 125), the zero-eye defaults
(lines 127-131) and the assembled record. -/
def eyesRecord (eyesLen : ℕ) (pre : EyesPre) (gz : String) : EyesData :=
  { left_eye := pre.left_eye
    right_eye := pre.right_eye
    left_ear := pre.left_ear
    right_ear := pre.right_ear
    left_open :=
      if eyesLen = 0 then false
      else if lowEarOverride eyesLen pre then false
      else decide (pre.left_ear > 1/4 * (12/10))
    right_open :=
      if eyesLen = 0 then false
      else if lowEarOverride eyesLen pre then false
      else decide (pre.right_ear > 1/4 * (12/10))
    avg_ear :=
      if eyesLen = 0 then 3/20
      else if 2 ≤ eyesLen then (pre.left_ear + pre.right_ear) / 2
      else max pre.left_ear pre.right_ear
    gaze_direction := gz
    eyes_detected := eyesLen }

/-- Embeds `detect_eyes_detailed` (lines 56-174).  The cascade output is the
input list `eyes`; `w`, `h` are the face-region dimensions.  The `none`
branch of `gazeOf` is the `ZeroDivisionError` path, caught at line 161 and
answered with the closed-eyes error record. -/
def detect_eyes_detailed (w h : ℕ) (eyes : List EyeBox) : EyesData :=
  match gazeOf w (eyesPre w eyes) with
  | none => errorEyesData
  | some gz => eyesRecord eyes.length (eyesPre w eyes) gz

/-- The blink condition of `detect_blink` (lines 182-191): once at least
`EAR_CONSEC_FRAMES = 3` samples are buffered, take the last 3
(`recent_ears`); a blink needs all of them below `EAR_THRESHOLD = 0.25`,
`len(recent_ears) > 3`, and `recent_ears[-4]` above the threshold.  The
`getD` totalizes the `[-4]` access, which the source only reaches under the
length guard. -/
def blinkCond (hist : List ℚ) : Bool :=
  if 3 ≤ hist.length then
    let recent_ears := hist.drop (hist.length - 3)
    if recent_ears.all (fun e => decide (e < 1/4)) then
      decide (recent_ears.length > 3) &&
        decide (recent_ears.getD (recent_ears.length - 4) 0 > 1/4)
    else false
  else false

/-- Embeds `detect_blink` (lines 176-196): append the frame's `avg_ear` to
the EAR history, evaluate the blink condition, and record `1` or `0` in the
blink history. -/
def detect_blink (st : DetectorState) (eye_data : EyesData) : Bool × DetectorState :=
  let hist := dappend 30 st.eye_aspect_ratio_history eye_data.avg_ear
  let b := blinkCond hist
  (b, { st with
          eye_aspect_ratio_history := hist
          blink_history := dappend 30 st.blink_history (if b then 1 else 0) })

/-- Embeds `calculate_blink_rate` (lines 198-205): zero until 10 samples are
buffered, then the sum of the last 30 blink flags divided by `30.0`. -/
def calculate_blink_rate (st : DetectorState) : ℚ :=
  if st.blink_history.length < 10 then 0
  else (((st.blink_history.drop (st.blink_history.length - 30)).sum : ℚ)) / 30

/-- Embeds `detect_yawn` (lines 207-240).  The source derives the mouth
aspect ratio from the grayscale face region
(`mar = (h - int(h*0.6)) / w`); the measured ratio enters the model as the
input `mar` (the claims quantify over MAR samples).  The ratio is appended
to `mouth_history` (maxlen 30) and a yawn is declared when at least
`YAWN_CONSEC_FRAMES = 10` samples are buffered and the last 10 all exceed
`YAWN_THRESHOLD = 0.6`. -/
def detect_yawn (st : DetectorState) (mar : ℚ) : (Bool × ℚ) × DetectorState :=
  let hist := dappend 30 st.mouth_history mar
  let st2 := { st with mouth_history := hist }
  if 10 ≤ hist.length then
    let recent_mar := hist.drop (hist.length - 10)
    if recent_mar.all (fun m => decide (m > 3/5)) then ((true, mar), st2)
    else ((false, mar), st2)
  else ((false, mar), st2)

/-- Embeds `estimate_head_pose_advanced` (lines 242-285).  With both eyes
present, roll comes from `atan2` over the integer eye-center offsets (an
external real-valued measurement, the input `rollVal`, used only when
`eye_dx ≠ 0`); yaw and pitch are the normalized offsets of the eye-center
midpoint from the face center scaled by 45 and 30 degrees.  When the face
region has zero width or height the source divides by zero
(`ZeroDivisionError`), lands in the `except` branch and returns the zero
pose without appending to the history.  The computed pose is appended to
`head_pose_history` (maxlen 60). -/
def estimate_head_pose_advanced (st : DetectorState) (w h : ℕ) (eyes_data : EyesData)
    (rollVal : ℚ) : HeadPose × DetectorState :=
  match eyes_data.left_eye, eyes_data.right_eye with
  | some le, some re =>
    if w = 0 ∨ h = 0 then (⟨0, 0, 0⟩, st)
    else
      let left_eye_y : ℕ := le.y + le.bh / 2
      let right_eye_y : ℕ := re.y + re.bh / 2
      let eye_dx : ℤ := ((re.x + re.bw / 2 : ℕ) : ℤ) - ((le.x + le.bw / 2 : ℕ) : ℤ)
      let roll : ℚ := if eye_dx ≠ 0 then rollVal else 0
      let eye_center_x : ℚ := (((le.x + le.bw / 2 : ℕ) : ℚ) + ((re.x + re.bw / 2 : ℕ) : ℚ)) / 2
      let eye_offset : ℚ := (eye_center_x - (w : ℚ) / 2) / ((w : ℚ) / 2)
      let yaw : ℚ := eye_offset * 45
      let eye_center_y : ℚ := ((left_eye_y : ℚ) + (right_eye_y : ℚ)) / 2
      let vertical_offset : ℚ := (eye_center_y - (h : ℚ) / 2) / ((h : ℚ) / 2)
      let pitch : ℚ := vertical_offset * 30
      let hp : HeadPose := ⟨pitch, yaw, roll⟩
      (hp, { st with head_pose_history := dappend 60 st.head_pose_history hp })
  | _, _ =>
    let hp : HeadPose := ⟨0, 0, 0⟩
    (hp, { st with head_pose_history := dappend 60 st.head_pose_history hp })

/-- Face-presence adjustment of `calculate_attention_score` (lines 386-387):
`+20` when any face was detected this frame. -/
def faceStep (emotions_data : List EmotionRec) (s : ℚ) : ℚ :=
  if emotions_data.isEmpty then s else s + 20

/-- Eye-openness adjustment (lines 390-402): `+20` when both eyes are open,
the average EAR exceeds `EAR_THRESHOLD` and at least two eyes were located;
`+5` when at least one eye is open and the average EAR exceeds
`EAR_THRESHOLD * 0.8`; otherwise subtract 50 and floor at 0. -/
def eyeStep (eyes_data : EyesData) (s : ℚ) : ℚ :=
  if eyes_data.left_open && eyes_data.right_open &&
      decide (eyes_data.avg_ear > 1/4) && decide (2 ≤ eyes_data.eyes_detected) then
    s + 20
  else if (eyes_data.left_open || eyes_data.right_open) &&
      decide (eyes_data.avg_ear > 1/4 * (8/10)) then
    s + 5
  else
    max 0 (s - 50)

/-- Gaze adjustment (lines 405-408): `+15` centered, `-10` left or right. -/
def gazeStep (eyes_data : EyesData) (s : ℚ) : ℚ :=
  if eyes_data.gaze_direction = "center" then s + 15
  else if eyes_data.gaze_direction = "left" ∨ eyes_data.gaze_direction = "right" then s - 10
  else s

/-- Head-pose adjustment (lines 410-419): `+15` for `|yaw| < 10` and
`-5 < pitch < 10`; else `+5` for `|yaw| < 20` and `-10 < pitch < 15`; else
`-20` for `|yaw| > 25` or `pitch < -15` or `pitch > 20`; else unchanged. -/
def headPoseStep (yaw pitch : ℚ) (s : ℚ) : ℚ :=
  if |yaw| < 10 ∧ (-5 < pitch ∧ pitch < 10) then s + 15
  else if |yaw| < 20 ∧ (-10 < pitch ∧ pitch < 15) then s + 5
  else if |yaw| > 25 ∨ pitch < -15 ∨ pitch > 20 then s - 20
  else s

/-- Blink-rate adjustment (lines 422-425): `-15` above
`BLINK_RATE_THRESHOLD = 0.5`, `-5` above `0.7` times that. -/
def blinkStep (blink_rate : ℚ) (s : ℚ) : ℚ :=
  if blink_rate > 1/2 then s - 15
  else if blink_rate > 1/2 * (7/10) then s - 5
  else s

/-- Yawn adjustment (lines 428-429): `-15` when a yawn was detected. -/
def yawnStep (yawn_detected : Bool) (s : ℚ) : ℚ :=
  if yawn_detected then s - 15 else s

/-- Emotion adjustment (lines 432-441), read from the first face. -/
def emotionStep (emotions_data : List EmotionRec) (s : ℚ) : ℚ :=
  match emotions_data with
  | [] => s
  | e :: _ =>
    if e.emotion = "Happy" then s + 10
    else if e.emotion = "Neutral" then s + 5
    else if e.emotion = "Sad" ∨ e.emotion = "Angry" then s - 5
    else if e.emotion = "Surprise" then s + 3
    else s

/-- Embeds `calculate_attention_score` (lines 380-450): the ordered
adjustments applied to the neutral baseline `50`, with the final clamp
`max(0.0, min(100.0, base_score))`. -/
def calculate_attention_score (emotions_data : List EmotionRec) (eyes_data : EyesData)
    (head_pose : HeadPose) (blink_rate : ℚ) (yawn_detected : Bool) : ℚ :=
  max 0 (min 100
    (emotionStep emotions_data
      (yawnStep yawn_detected
        (blinkStep blink_rate
          (headPoseStep head_pose.yaw head_pose.pitch
            (gazeStep eyes_data
              (eyeStep eyes_data
                (faceStep emotions_data 50))))))))

/-- Embeds `determine_attention_status` (lines 452-491): the
priority-ordered decision list.  Eyes closed (both open-flags false, or
fewer than two eyes located with `avg_ear` below `EAR_THRESHOLD`) wins
first; then yawn; then extreme head pose; then the score bands, with the
working score forced to 25 when an eye is closed and the score exceeds 30. -/
def determine_attention_status (attention_score : ℚ) (eyes_data : EyesData)
    (head_pose : HeadPose) (yawn_detected : Bool) : String :=
  if (!eyes_data.left_open && !eyes_data.right_open) ||
      (decide (eyes_data.eyes_detected < 2) && decide (eyes_data.avg_ear < 1/4)) then
    "Distracted (Eyes Closed)"
  else if yawn_detected then "Drowsy / Fatigued"
  else if |head_pose.yaw| > 30 ∨ head_pose.pitch < -20 then "Inattentive (Looking Away)"
  else
    let score : ℚ :=
      if (!eyes_data.left_open || !eyes_data.right_open) && decide (attention_score > 30) then 25
      else attention_score
    if 75 ≤ score then "Attentive"
    else if 50 ≤ score then "Partially Attentive"
    else if 30 ≤ score then "Distracted"
    else "Inattentive"

/-- The per-frame measurements of `detect_emotion_and_attention` that come
from OpenCV on the extracted face region: the cascade's eye boxes, the face
region's width and height, the measured mouth aspect ratio, the `atan2`
roll value and the face-quality composite (lines 493-521, brightness /
contrast / sharpness statistics of the pixel data). -/
structure FrameOracle where
  eyes : List EyeBox
  faceW : ℕ
  faceH : ℕ
  mar : ℚ
  rollVal : ℚ
  quality : ℚ
deriving DecidableEq, Repr

/-- The attention record returned by `detect_emotion_and_attention`.
Fields absent from the no-face dictionary of lines 294-303
(`left_ear`, `right_ear`, `blink_detected`, `yawn_intensity`) are `Option`s
set to `none` there. -/
structure AttentionData where
  face_detected : Bool
  attention_score : ℚ
  status : String
  head_pose : HeadPose
  gaze_direction : String
  left_open : Bool
  right_open : Bool
  left_ear : Option ℚ
  right_ear : Option ℚ
  blink_rate : ℚ
  blink_detected : Option Bool
  yawn_detected : Bool
  yawn_intensity : Option ℚ
  quality_score : ℚ
deriving DecidableEq, Repr

/-- The record returned when the emotion detector finds no face
(lines 294-303). -/
def noFaceAttentionData : AttentionData :=
  { face_detected := false
    attention_score := 0
    status := "Absent / Disengaged"
    head_pose := ⟨0, 0, 0⟩
    gaze_direction := "unknown"
    left_open := false
    right_open := false
    left_ear := none
    right_ear := none
    blink_rate := 0
    blink_detected := none
    yawn_detected := false
    yawn_intensity := none
    quality_score := 0 }

/-- Embeds `detect_emotion_and_attention` (lines 287-365).  The emotion
detector's per-face records are the input `emotions_data`; when the list is
empty the pipeline short-circuits to `noFaceAttentionData` and touches no
history.  Otherwise it runs the per-face signals in source order; note the
head pose is appended to `head_pose_history` a second time at line 325,
after the append inside `estimate_head_pose_advanced`. -/
def detect_emotion_and_attention (st : DetectorState) (emotions_data : List EmotionRec)
    (oracle : FrameOracle) : AttentionData × DetectorState :=
  match emotions_data with
  | [] => (noFaceAttentionData, st)
  | e0 :: _ =>
    let eyes_data := detect_eyes_detailed oracle.faceW oracle.faceH oracle.eyes
    let blinkRes := detect_blink st eyes_data
    let st1 := blinkRes.2
    let blink_rate := calculate_blink_rate st1
    let yawnRes := detect_yawn st1 oracle.mar
    let st2 := yawnRes.2
    let poseRes := estimate_head_pose_advanced st2 oracle.faceW oracle.faceH eyes_data oracle.rollVal
    let head_pose := poseRes.1
    let st3 := poseRes.2
    let st4 := { st3 with head_pose_history := dappend 60 st3.head_pose_history head_pose }
    let attention_score :=
      calculate_attention_score emotions_data eyes_data head_pose blink_rate yawnRes.1.1
    let attention_status :=
      determine_attention_status attention_score eyes_data head_pose yawnRes.1.1
    let st5 := { st4 with emotion_history := dappend 90 st4.emotion_history e0.emotion }
    ({ face_detected := true
       attention_score := attention_score
       status := attention_status
       head_pose := head_pose
       gaze_direction := eyes_data.gaze_direction
       left_open := eyes_data.left_open
       right_open := eyes_data.right_open
       left_ear := some eyes_data.left_ear
       right_ear := some eyes_data.right_ear
       blink_rate := blink_rate
       blink_detected := some blinkRes.1
       yawn_detected := yawnRes.1.1
       yawn_intensity := some yawnRes.1.2
       quality_score := oracle.quality }, st5)

/-- Mutable state of `AudioProcessor` (`audio_processor.py` lines 7-15):
the rolling level window and the two hysteresis counters. -/
structure AudioState where
  audio_history : List ℚ
  voice_frames : ℕ
  silence_frames : ℕ
deriving DecidableEq, Repr

/-- Fresh `AudioProcessor` state. -/
def initAudio : AudioState := { audio_history := [], voice_frames := 0, silence_frames := 0 }

/-- Embeds `process_audio_chunk` (`audio_processor.py` lines 17-73) from
the combined level on: the source computes
`combined_level = 0.7 * rms + 0.3 * peak` from the chunk's samples; that
scalar enters the model as the input.  The level is appended to
`audio_history` with a `pop(0)` once the window exceeds 30 entries;
`noise_level = min(mean(history) * 20, 1.0)`; the voice-activity counters
follow lines 57-68: an above-threshold chunk (`VOICE_THRESHOLD = 0.015`)
increments `voice_frames`, zeroes `silence_frames` and reports activity
once `voice_frames ≥ 2`; a below-threshold chunk increments
`silence_frames` and zeroes `voice_frames` once `silence_frames ≥ 5`. -/
def process_audio_chunk (st : AudioState) (combined_level : ℚ) : (Bool × ℚ × ℚ) × AudioState :=
  let hist0 := st.audio_history ++ [combined_level]
  let hist := if 30 < hist0.length then hist0.drop 1 else hist0
  let avg_level : ℚ := if hist.isEmpty then 0 else hist.sum / (hist.length : ℚ)
  let noise_level : ℚ := min (avg_level * 20) 1
  if combined_level > 3/200 then
    let vf := st.voice_frames + 1
    ((decide (2 ≤ vf), noise_level, combined_level),
      { audio_history := hist, voice_frames := vf, silence_frames := 0 })
  else
    let sf := st.silence_frames + 1
    let vf := if 5 ≤ sf then 0 else st.voice_frames
    ((false, noise_level, combined_level),
      { audio_history := hist, voice_frames := vf, silence_frames := sf })

/-- An `EyesData` record carrying a given average EAR, used to drive
`detect_blink` with a synthetic EAR sequence (the function reads only
`avg_ear`). -/
def mkEyesWithEar (a : ℚ) : EyesData := { errorEyesData with avg_ear := a }

/-- The blink flags returned by feeding an EAR sequence, one sample per
call, into `detect_blink`. -/
def runBlinkFlags : DetectorState → List ℚ → List Bool
  | _, [] => []
  | st, e :: rest =>
    (detect_blink st (mkEyesWithEar e)).1 ::
      runBlinkFlags (detect_blink st (mkEyesWithEar e)).2 rest

/-- The yawn flags returned by feeding a MAR sequence, one sample per call,
into `detect_yawn`. -/
def runYawnFlags : DetectorState → List ℚ → List Bool
  | _, [] => []
  | st, m :: rest =>
    (detect_yawn st m).1.1 :: runYawnFlags (detect_yawn st m).2 rest

/-- The `voice_active` flags returned by feeding a sequence of combined
levels, one chunk per call, into `process_audio_chunk`. -/
def runAudioFlags : AudioState → List ℚ → List Bool
  | _, [] => []
  | st, l :: rest =>
    (process_audio_chunk st l).1.1 :: runAudioFlags (process_audio_chunk st l).2 rest

/-- Folding a sequence of combined levels through `process_audio_chunk`,
keeping the final state. -/
def foldAudio (st : AudioState) (levels : List ℚ) : AudioState :=
  levels.foldl (fun s l => (process_audio_chunk s l).2) st

/-- The length of the trailing run of below-threshold chunks in a level
sequence (a chunk is below threshold when it is not above
`VOICE_THRESHOLD = 0.015`). -/
def trailingBelow (levels : List ℚ) : ℕ :=
  (levels.reverse.takeWhile (fun l => !decide (l > 3/200))).length

/-- The buffer-capacity invariant of the detector state: each history holds
no more samples than the capacity declared in `__init__` (lines 14-19). -/
def WithinCaps (st : DetectorState) : Prop :=
  st.blink_history.length ≤ 30 ∧
  st.eye_aspect_ratio_history.length ≤ 30 ∧
  st.head_pose_history.length ≤ 60 ∧
  st.mouth_history.length ≤ 30 ∧
  st.emotion_history.length ≤ 90

instance (st : DetectorState) : Decidable (WithinCaps st) := by
  unfold WithinCaps; infer_instance

/-- C1: for every combination of inputs (any emotions list, any eye-data
record, any head pose, any blink rate, any yawn flag), the value returned
by `calculate_attention_score` lies in `[0, 100]`: the final clamp
`max(0.0, min(100.0, base_score))` bounds every path. -/
theorem calculate_attention_score_in_range (emotions_data : List EmotionRec)
    (eyes_data : EyesData) (head_pose : HeadPose) (blink_rate : ℚ) (yawn_detected : Bool) :
    0 ≤ calculate_attention_score emotions_data eyes_data head_pose blink_rate yawn_detected ∧
      calculate_attention_score emotions_data eyes_data head_pose blink_rate yawn_detected ≤ 100 :=
  ⟨le_max_left 0 _, max_le (by norm_num) (min_le_left _ _)⟩

/-- C3: whenever the eyes-closed condition holds (both open-flags false, or
fewer than 2 eyes located with average EAR below the closed threshold
`0.25`), `determine_attention_status` returns "Distracted (Eyes Closed)"
for every numeric attention score, head pose and yawn flag — including
scores above 75. -/
theorem eyes_closed_preempts_score (eyes_data : EyesData)
    (hc : (eyes_data.left_open = false ∧ eyes_data.right_open = false) ∨
          (eyes_data.eyes_detected < 2 ∧ eyes_data.avg_ear < 1/4)) :
    ∀ (attention_score : ℚ) (head_pose : HeadPose) (yawn_detected : Bool),
      determine_attention_status attention_score eyes_data head_pose yawn_detected =
        "Distracted (Eyes Closed)" := by
  intro s hp y
  rcases hc with ⟨h1, h2⟩ | ⟨h1, h2⟩
  · simp [determine_attention_status, h1, h2]
  · have h2i : eyes_data.avg_ear < 4⁻¹ := by
      rw [show ((4 : ℚ))⁻¹ = 1/4 by norm_num]; exact h2
    simp [determine_attention_status, h1, h2]
    exact fun _ hle => absurd hle (not_le.mpr h2i)

/-- Witness for C3 at a concrete input: the safe-default eye record (both
flags false) with a score of 90. -/
theorem eyes_closed_preempts_score_witness :
    determine_attention_status 90 errorEyesData ⟨0, 0, 0⟩ false = "Distracted (Eyes Closed)" :=
  eyes_closed_preempts_score errorEyesData (Or.inl ⟨rfl, rfl⟩) 90 ⟨0, 0, 0⟩ false

/-- C9: a head pose in none of the three bands of the scorer — `|yaw|`
between 20° and 25° with pitch strictly inside `(-15°, 20°)` — receives no
head-pose adjustment: the head-pose step is the identity, so the attention
score with such a pose equals the same computation with the head-pose step
elided, holding all other inputs fixed. -/
theorem head_pose_band_gap (yaw pitch : ℚ)
    (h1 : 20 ≤ |yaw|) (h2 : |yaw| ≤ 25) (h3 : -15 < pitch) (h4 : pitch < 20) :
    (∀ s : ℚ, headPoseStep yaw pitch s = s) ∧
    (∀ (emotions_data : List EmotionRec) (eyes_data : EyesData) (blink_rate : ℚ)
        (yawn_detected : Bool) (rollVal : ℚ),
      calculate_attention_score emotions_data eyes_data ⟨pitch, yaw, rollVal⟩ blink_rate
          yawn_detected =
        max 0 (min 100
          (emotionStep emotions_data
            (yawnStep yawn_detected
              (blinkStep blink_rate
                (gazeStep eyes_data
                  (eyeStep eyes_data
                    (faceStep emotions_data 50)))))))) := by
  have key : ∀ s : ℚ, headPoseStep yaw pitch s = s := by
    intro s
    unfold headPoseStep
    rw [if_neg, if_neg, if_neg]
    · rintro (hy | hp | hp)
      · exact absurd h2 (not_le.mpr hy)
      · linarith
      · linarith
    · rintro ⟨hy, -⟩; exact absurd h1 (not_le.mpr hy)
    · rintro ⟨hy, -⟩; exact absurd h1 (not_le.mpr (hy.trans (by norm_num)))
  refine ⟨key, fun ed eyd br yd rv => ?_⟩
  simp only [calculate_attention_score, key]

/-- Witness for C9 at the concrete gap pose yaw = 22°, pitch = 0°. -/
theorem head_pose_band_gap_witness : headPoseStep 22 0 70 = 70 :=
  (head_pose_band_gap 22 0
    (by rw [abs_of_nonneg] <;> norm_num)
    (by rw [abs_of_nonneg] <;> norm_num)
    (by norm_num) (by norm_num)).1 70

theorem detect_eyes_detailed_eq_none (w h : ℕ) (eyes : List EyeBox)
    (hg : gazeOf w (eyesPre w eyes) = none) :
    detect_eyes_detailed w h eyes = errorEyesData := by
  unfold detect_eyes_detailed
  rw [hg]

theorem detect_eyes_detailed_eq_some (w h : ℕ) (eyes : List EyeBox) (gz : String)
    (hg : gazeOf w (eyesPre w eyes) = some gz) :
    detect_eyes_detailed w h eyes = eyesRecord eyes.length (eyesPre w eyes) gz := by
  unfold detect_eyes_detailed
  rw [hg]

theorem bboxEar_nonneg (bw bh : ℕ) : 0 ≤ bboxEar bw bh :=
  le_min (div_nonneg (Nat.cast_nonneg _) (by positivity)) (by norm_num)

theorem bboxEar_le (bw bh : ℕ) : bboxEar bw bh ≤ 2/5 := min_le_right _ _

theorem earTwoEyes_bounds (b : EyeBox) : 0 ≤ earTwoEyes b ∧ earTwoEyes b ≤ 2/5 := by
  unfold earTwoEyes
  split_ifs
  · exact ⟨bboxEar_nonneg _ _, bboxEar_le _ _⟩
  · norm_num

theorem earOneEye_bounds (b : EyeBox) : 0 ≤ earOneEye b ∧ earOneEye b ≤ 2/5 := by
  unfold earOneEye
  split_ifs
  · exact ⟨bboxEar_nonneg _ _, bboxEar_le _ _⟩
  · norm_num

theorem eyesPre_ear_bounds (w : ℕ) (eyes : List EyeBox) :
    (0 ≤ (eyesPre w eyes).left_ear ∧ (eyesPre w eyes).left_ear ≤ 2/5) ∧
    (0 ≤ (eyesPre w eyes).right_ear ∧ (eyesPre w eyes).right_ear ≤ 2/5) := by
  unfold eyesPre
  split_ifs with hc1 hc2 hc3
  · exact ⟨earTwoEyes_bounds _, earTwoEyes_bounds _⟩
  · exact ⟨earOneEye_bounds _, by norm_num⟩
  · exact ⟨by norm_num, earOneEye_bounds _⟩
  · exact ⟨by norm_num, by norm_num⟩

/-- Counterexample to C4 as stated: for the landmark point set
`[(0,0), (0,10), (0,10), (1,0), (0,0), (0,0)]` the three
`np.linalg.norm` distances are `vertical_1 = 10`, `vertical_2 = 10`,
`horizontal = 1`, and `calculate_eye_aspect_ratio` returns `10`, far above
`0.4`: the landmark-geometry path has no upper clamp. -/
theorem ear_clamp_counterexample : calculate_eye_aspect_ratio 6 10 10 1 > 2/5 := by
  norm_num [calculate_eye_aspect_ratio]

/-- C4 (amended): the bounding-box EAR heuristic `min(h/(2w), 0.4)` — the
path `detect_eyes_detailed` actually uses — always lies in `[0, 0.4]`, and
every EAR field the eye detector reports (`left_ear`, `right_ear`,
`avg_ear`) lies in `[0, 0.4]`; the landmark-geometry function
`calculate_eye_aspect_ratio` is only guaranteed nonnegative (its distance
inputs being norms, hence nonnegative), not bounded by `0.4`. -/
theorem ear_clamp_amended :
    (∀ bw bh : ℕ, 0 ≤ bboxEar bw bh ∧ bboxEar bw bh ≤ 2/5) ∧
    (∀ (w h : ℕ) (eyes : List EyeBox),
      (0 ≤ (detect_eyes_detailed w h eyes).left_ear ∧
        (detect_eyes_detailed w h eyes).left_ear ≤ 2/5) ∧
      (0 ≤ (detect_eyes_detailed w h eyes).right_ear ∧
        (detect_eyes_detailed w h eyes).right_ear ≤ 2/5) ∧
      (0 ≤ (detect_eyes_detailed w h eyes).avg_ear ∧
        (detect_eyes_detailed w h eyes).avg_ear ≤ 2/5)) ∧
    (∀ (numPoints : ℕ) (vertical_1 vertical_2 horizontal : ℚ),
      0 ≤ vertical_1 → 0 ≤ vertical_2 → 0 ≤ horizontal →
      0 ≤ calculate_eye_aspect_ratio numPoints vertical_1 vertical_2 horizontal) := by
  refine ⟨fun bw bh => ⟨bboxEar_nonneg bw bh, bboxEar_le bw bh⟩, ?_, ?_⟩
  · intro w h eyes
    obtain ⟨⟨hl0, hl1⟩, hr0, hr1⟩ := eyesPre_ear_bounds w eyes
    cases hg : gazeOf w (eyesPre w eyes) with
    | none =>
      rw [detect_eyes_detailed_eq_none w h eyes hg]
      refine ⟨⟨?_, ?_⟩, ⟨?_, ?_⟩, ?_, ?_⟩ <;> norm_num [errorEyesData]
    | some gz =>
      rw [detect_eyes_detailed_eq_some w h eyes gz hg]
      simp only [eyesRecord]
      refine ⟨⟨hl0, hl1⟩, ⟨hr0, hr1⟩, ?_⟩
      split_ifs
      · norm_num
      · constructor
        · positivity
        · linarith
      · exact ⟨le_max_of_le_left hl0, max_le hl1 hr1⟩
  · intro n v1 v2 hz h1 h2 h3
    unfold calculate_eye_aspect_ratio
    split_ifs
    · norm_num
    · norm_num
    · positivity

/-- Witness for C4 (amended), conjunct on the landmark path, at the
distances of the counterexample point set. -/
theorem ear_clamp_amended_witness : 0 ≤ calculate_eye_aspect_ratio 6 10 10 1 :=
  ear_clamp_amended.2.2 6 10 10 1 (by norm_num) (by norm_num) (by norm_num)

/-- C10: whenever at least one eye is detected and either computed per-eye
aspect ratio is below `0.15`, `detect_eyes_detailed` reports both
`left_open` and `right_open` false — a single very low EAR marks both eyes
closed, even if the other ratio exceeds the open threshold. -/
theorem low_ear_forces_both_closed (w h : ℕ) (eyes : List EyeBox)
    (h1 : 1 ≤ eyes.length)
    (h2 : (detect_eyes_detailed w h eyes).left_ear < 3/20 ∨
          (detect_eyes_detailed w h eyes).right_ear < 3/20) :
    (detect_eyes_detailed w h eyes).left_open = false ∧
    (detect_eyes_detailed w h eyes).right_open = false := by
  cases hg : gazeOf w (eyesPre w eyes) with
  | none => rw [detect_eyes_detailed_eq_none w h eyes hg]; simp [errorEyesData]
  | some gz =>
    rw [detect_eyes_detailed_eq_some w h eyes gz hg] at h2 ⊢
    simp only [eyesRecord] at h2 ⊢
    have hne : ¬ eyes.length = 0 := by omega
    have hov : lowEarOverride eyes.length (eyesPre w eyes) = true := by
      unfold lowEarOverride
      rcases h2 with hlt | hlt <;> simp_all
    simp [hne, hov]

/-- C5: when the emotion detector returns an empty list (no face found),
`detect_emotion_and_attention` returns the record with
`face_detected = false`, `attention_score = 0.0`,
`status = "Absent / Disengaged"`, `blink_rate = 0.0` and
`yawn_detected = false`, and no per-face signal is computed: the detector
state (every history buffer) is returned untouched. -/
theorem no_face_short_circuit (st : DetectorState) (oracle : FrameOracle) :
    (detect_emotion_and_attention st [] oracle).1.face_detected = false ∧
    (detect_emotion_and_attention st [] oracle).1.attention_score = 0 ∧
    (detect_emotion_and_attention st [] oracle).1.status = "Absent / Disengaged" ∧
    (detect_emotion_and_attention st [] oracle).1.blink_rate = 0 ∧
    (detect_emotion_and_attention st [] oracle).1.yawn_detected = false ∧
    (detect_emotion_and_attention st [] oracle).2 = st :=
  ⟨rfl, rfl, rfl, rfl, rfl, rfl⟩

theorem blinkCond_always_false (hist : List ℚ) : blinkCond hist = false := by
  unfold blinkCond
  dsimp only
  split_ifs with h1 h2
  · have hle : ¬ (hist.drop (hist.length - 3)).length > 3 := by
      rw [List.length_drop]; omega
    rw [decide_eq_false hle, Bool.false_and]
  · rfl
  · rfl

/-- C2 (the code contradicts it): `detect_blink` can never return `True`.
`recent_ears` is the last `EAR_CONSEC_FRAMES = 3` samples of the history,
so `len(recent_ears) > 3` at line 189 never holds and the falling-edge
branch is unreachable.  In particular the spec's synthetic EAR sequence
`[0.35, 0.35, 0.35, 0.35, 0.10, 0.10, 0.10]`, fed from a fresh detector,
yields no blink at any of the seven calls instead of exactly one at the
transition frame. -/
theorem blink_never_fires :
    (∀ (st : DetectorState) (eye_data : EyesData), (detect_blink st eye_data).1 = false) ∧
    runBlinkFlags initState [7/20, 7/20, 7/20, 7/20, 1/10, 1/10, 1/10] =
      [false, false, false, false, false, false, false] := by
  have hstep : ∀ (st : DetectorState) (eye_data : EyesData),
      (detect_blink st eye_data).1 = false := fun st e => blinkCond_always_false _
  refine ⟨hstep, ?_⟩
  simp [runBlinkFlags, detect_blink, blinkCond_always_false]

/-- C6: `detect_yawn` declares a yawn exactly when, with at least
`YAWN_CONSEC_FRAMES = 10` MAR samples buffered (after appending the
current one), the most recent 10 all exceed `YAWN_THRESHOLD = 0.6`;
feeding, from a fresh detector, a below-threshold sample followed by 9
above-threshold samples triggers nothing, while appending a 10th
above-threshold sample triggers a yawn at exactly that call. -/
theorem yawn_requires_sustained_frames :
    (∀ (st : DetectorState) (mar : ℚ),
      ((detect_yawn st mar).1.1 = true ↔
        (10 ≤ (dappend 30 st.mouth_history mar).length ∧
          ∀ m ∈ (dappend 30 st.mouth_history mar).drop
              ((dappend 30 st.mouth_history mar).length - 10), m > 3/5))) ∧
    runYawnFlags initState (1/2 :: List.replicate 9 (7/10)) = List.replicate 10 false ∧
    runYawnFlags initState (1/2 :: List.replicate 10 (7/10)) =
      List.replicate 10 false ++ [true] := by
  refine ⟨?_, ?_, ?_⟩
  · intro st mar
    unfold detect_yawn
    dsimp only
    split_ifs with hlen hall
    · refine iff_of_true rfl ⟨hlen, ?_⟩
      intro m hm
      have := List.all_eq_true.mp hall m hm
      exact of_decide_eq_true this
    · refine iff_of_false (by simp) ?_
      rintro ⟨-, hmem⟩
      exact hall (List.all_eq_true.mpr fun m hm => decide_eq_true (hmem m hm))
    · refine iff_of_false (by simp) ?_
      rintro ⟨hl, -⟩
      exact hlen hl
  · norm_num [runYawnFlags, detect_yawn, dappend, initState, List.replicate]
  · norm_num [runYawnFlags, detect_yawn, dappend, initState, List.replicate]

/-- Counterexample to C7 as stated: the level sequence
`[0.02, 0.0, 0.02]` from a fresh `AudioProcessor` reports
`voice_active = true` at the third chunk although no two consecutive
chunks were above the voice threshold `0.015` (the middle chunk is
silent, but fewer than 5 silent chunks do not reset `voice_frames`). -/
theorem audio_two_consecutive_counterexample :
    runAudioFlags initAudio [1/50, 0, 1/50] = [false, false, true] ∧
    ¬ ((1/50 : ℚ) > 3/200 ∧ (0 : ℚ) > 3/200) ∧
    ¬ ((0 : ℚ) > 3/200 ∧ (1/50 : ℚ) > 3/200) := by
  refine ⟨?_, by norm_num, by norm_num⟩
  norm_num [runAudioFlags, process_audio_chunk, initAudio]

theorem trailingBelow_append_above (xs : List ℚ) (x : ℚ) (hx : x > 3/200) :
    trailingBelow (xs ++ [x]) = 0 := by
  unfold trailingBelow
  rw [List.reverse_append]
  simp [List.takeWhile_cons, hx]

theorem trailingBelow_append_below (xs : List ℚ) (x : ℚ) (hx : ¬ x > 3/200) :
    trailingBelow (xs ++ [x]) = trailingBelow xs + 1 := by
  unfold trailingBelow
  rw [List.reverse_append]
  simp [List.takeWhile_cons, hx, Nat.add_comm]

/-- C7 (amended): `voice_active` is reported true exactly when the current
chunk's combined level is above the voice threshold and the
consecutive-active counter (after this chunk's increment) has reached 2 —
the above-threshold chunks counted need not be consecutive, since up to 4
intervening silent chunks leave the counter untouched; the counter is
zeroed by a below-threshold chunk only when it completes 5 consecutive
below-threshold chunks (from a fresh processor, `silence_frames` always
equals the length of the trailing silent run); in particular a single
above-threshold chunk from a fresh or reset state yields
`voice_active = false`. -/
theorem audio_hysteresis_amended :
    (∀ (st : AudioState) (l : ℚ),
      ((process_audio_chunk st l).1.1 = true ↔ (l > 3/200 ∧ 2 ≤ st.voice_frames + 1))) ∧
    (∀ (st : AudioState) (l : ℚ), 1 ≤ st.voice_frames →
      (process_audio_chunk st l).2.voice_frames = 0 →
      (¬ l > 3/200) ∧ 5 ≤ st.silence_frames + 1) ∧
    (∀ levels : List ℚ,
      (foldAudio initAudio levels).silence_frames = trailingBelow levels) := by
  refine ⟨?_, ?_, ?_⟩
  · intro st l
    unfold process_audio_chunk
    dsimp only
    by_cases hl : l > 3/200
    · rw [if_pos hl]
      dsimp only
      simp [hl]
    · rw [if_neg hl]
      dsimp only
      simp [hl]
  · intro st l hvf h0
    unfold process_audio_chunk at h0
    dsimp only at h0
    by_cases hl : l > 3/200
    · rw [if_pos hl] at h0
      dsimp only at h0
      omega
    · rw [if_neg hl] at h0
      dsimp only at h0
      by_cases hsf : 5 ≤ st.silence_frames + 1
      · exact ⟨hl, hsf⟩
      · rw [if_neg hsf] at h0
        omega
  · intro levels
    induction levels using List.reverseRecOn with
    | nil => rfl
    | append_singleton xs x ih =>
      have hfold : foldAudio initAudio (xs ++ [x]) =
          (process_audio_chunk (foldAudio initAudio xs) x).2 := by
        unfold foldAudio
        rw [List.foldl_append, List.foldl_cons, List.foldl_nil]
      rw [hfold]
      unfold process_audio_chunk
      dsimp only
      by_cases hl : x > 3/200
      · rw [if_pos hl]
        dsimp only
        rw [trailingBelow_append_above xs x hl]
      · rw [if_neg hl]
        dsimp only
        rw [trailingBelow_append_below xs x hl, ih]

/-- Witness for C7 (amended): a processor that has seen one voice chunk and
then four silent chunks zeroes its active counter on the fifth silent
chunk. -/
theorem audio_hysteresis_amended_witness : ¬ (0 : ℚ) > 3/200 ∧ 5 ≤ 4 + 1 :=
  audio_hysteresis_amended.2.1 ⟨[], 1, 4⟩ 0 (by norm_num)
    (by norm_num [process_audio_chunk])

theorem dappend_length_le (α : Type) (cap : ℕ) (l : List α) (a : α) :
    (dappend cap l a).length ≤ cap := by
  unfold dappend
  rw [List.length_drop]
  omega

theorem dappend_foldl_suffix (α : Type) (cap : ℕ) (xs : List α) :
    List.foldl (dappend cap) [] xs = xs.drop (xs.length - cap) := by
  induction xs using List.reverseRecOn with
  | nil => simp
  | append_singleton ys y ih =>
    rw [List.foldl_append, List.foldl_cons, List.foldl_nil, ih]
    unfold dappend
    have hys : (ys ++ [y]).length = ys.length + 1 := by
      rw [List.length_append, List.length_singleton]
    rcases le_or_lt cap ys.length with hc | hc
    · have hlen : (ys.drop (ys.length - cap)).length = cap := by
        rw [List.length_drop]; omega
      have hidx : (ys.drop (ys.length - cap) ++ [y]).length - cap = 1 := by
        rw [List.length_append, List.length_singleton, hlen]; omega
      have hidx2 : (ys ++ [y]).length - cap = ys.length - cap + 1 := by
        rw [hys]; omega
      rw [hidx, hidx2]
      rcases Nat.eq_zero_or_pos cap with h0 | hpos
      · subst h0
        have e1 : (ys.drop (ys.length - 0) ++ [y]).drop 1 = [] := by
          apply List.drop_eq_nil_of_le
          rw [List.length_append, List.length_singleton, List.length_drop]
          omega
        have e2 : (ys ++ [y]).drop (ys.length - 0 + 1) = [] := by
          apply List.drop_eq_nil_of_le
          rw [hys]
          omega
        rw [e1, e2]
      · rw [List.drop_append_of_le_length (by omega : 1 ≤ (ys.drop (ys.length - cap)).length)]
        rw [List.drop_drop]
        rw [List.drop_append_of_le_length (by omega : ys.length - cap + 1 ≤ ys.length)]
    · have h1 : ys.length - cap = 0 := by omega
      have h2 : (ys ++ [y]).length - cap = 0 := by rw [hys]; omega
      rw [h1, List.drop_zero, h2, List.drop_zero]

/-- C8: every history window keeps its size at or below its fixed capacity
after every operation, and insertion order equals arrival order: a
`deque(maxlen)` append never exceeds the capacity, folding any arrival
sequence into an initially empty window leaves exactly the most recent
`cap` arrivals in arrival order (the window is a suffix of the arrival
sequence); `detect_blink`, `detect_yawn` and the full
`detect_emotion_and_attention` preserve the capacity invariant of all five
detector buffers, and `process_audio_chunk`'s rolling window is exactly a
`deque(maxlen 30)` append, never exceeding 30 entries. -/
theorem history_buffers_bounded :
    (∀ (α : Type) (cap : ℕ) (l : List α) (a : α), (dappend cap l a).length ≤ cap) ∧
    (∀ (α : Type) (cap : ℕ) (xs : List α),
      List.foldl (dappend cap) [] xs = xs.drop (xs.length - cap)) ∧
    (∀ (st : DetectorState) (eye_data : EyesData),
      WithinCaps st → WithinCaps (detect_blink st eye_data).2) ∧
    (∀ (st : DetectorState) (mar : ℚ),
      WithinCaps st → WithinCaps (detect_yawn st mar).2) ∧
    (∀ (st : DetectorState) (emotions_data : List EmotionRec) (oracle : FrameOracle),
      WithinCaps st → WithinCaps (detect_emotion_and_attention st emotions_data oracle).2) ∧
    (∀ (st : AudioState) (l : ℚ), st.audio_history.length ≤ 30 →
      (process_audio_chunk st l).2.audio_history = dappend 30 st.audio_history l ∧
      (process_audio_chunk st l).2.audio_history.length ≤ 30) := by
  have hblink : ∀ (st : DetectorState) (eye_data : EyesData),
      WithinCaps st → WithinCaps (detect_blink st eye_data).2 := by
    intro st e h
    obtain ⟨h1, h2, h3, h4, h5⟩ := h
    exact ⟨dappend_length_le _ _ _ _, dappend_length_le _ _ _ _, h3, h4, h5⟩
  have hyawn : ∀ (st : DetectorState) (mar : ℚ),
      WithinCaps st → WithinCaps (detect_yawn st mar).2 := by
    intro st mar h
    obtain ⟨h1, h2, h3, h4, h5⟩ := h
    unfold detect_yawn
    dsimp only
    split_ifs <;> exact ⟨h1, h2, h3, dappend_length_le _ _ _ _, h5⟩
  have hpose : ∀ (st : DetectorState) (w hgt : ℕ) (eyes_data : EyesData) (rv : ℚ),
      WithinCaps st → WithinCaps (estimate_head_pose_advanced st w hgt eyes_data rv).2 := by
    intro st w hgt e rv h
    obtain ⟨h1, h2, h3, h4, h5⟩ := h
    unfold estimate_head_pose_advanced
    cases e.left_eye with
    | none => exact ⟨h1, h2, dappend_length_le _ _ _ _, h4, h5⟩
    | some le =>
      cases e.right_eye with
      | none => exact ⟨h1, h2, dappend_length_le _ _ _ _, h4, h5⟩
      | some re =>
        dsimp only
        by_cases hwh : w = 0 ∨ hgt = 0
        · rw [if_pos hwh]
          exact ⟨h1, h2, h3, h4, h5⟩
        · rw [if_neg hwh]
          exact ⟨h1, h2, dappend_length_le _ _ _ _, h4, h5⟩
  have haudio : ∀ (st : AudioState) (l : ℚ), st.audio_history.length ≤ 30 →
      (process_audio_chunk st l).2.audio_history = dappend 30 st.audio_history l ∧
      (process_audio_chunk st l).2.audio_history.length ≤ 30 := by
    intro st l h
    have hlen : (st.audio_history ++ [l]).length = st.audio_history.length + 1 := by
      rw [List.length_append, List.length_singleton]
    have hcase : (if 30 < (st.audio_history ++ [l]).length
          then (st.audio_history ++ [l]).drop 1
          else st.audio_history ++ [l]) = dappend 30 st.audio_history l := by
      unfold dappend
      split_ifs with hgt
      · have hi : (st.audio_history ++ [l]).length - 30 = 1 := by
          rw [hlen] at hgt ⊢; omega
        rw [hi]
      · have hi : (st.audio_history ++ [l]).length - 30 = 0 := by
          rw [hlen] at hgt ⊢; omega
        rw [hi, List.drop_zero]
    have key : (process_audio_chunk st l).2.audio_history = dappend 30 st.audio_history l := by
      unfold process_audio_chunk
      dsimp only
      by_cases hl : l > 3/200
      · rw [if_pos hl]
        exact hcase
      · rw [if_neg hl]
        exact hcase
    exact ⟨key, key ▸ dappend_length_le _ _ _ _⟩
  refine ⟨dappend_length_le, dappend_foldl_suffix, hblink, hyawn, ?_, haudio⟩
  intro st emotions_data oracle h
  cases emotions_data with
  | nil => exact h
  | cons e0 rest =>
    obtain ⟨h1, h2, h3, h4, h5⟩ :=
      hpose (detect_yawn (detect_blink st
          (detect_eyes_detailed oracle.faceW oracle.faceH oracle.eyes)).2 oracle.mar).2
        oracle.faceW oracle.faceH
        (detect_eyes_detailed oracle.faceW oracle.faceH oracle.eyes) oracle.rollVal
        (hyawn _ _ (hblink _ _ h))
    exact ⟨h1, h2, dappend_length_le _ _ _ _, h4, dappend_length_le _ _ _ _⟩

/-- Witness for C8 at a concrete step: one `detect_blink` call from the
fresh detector preserves the capacity invariant. -/
theorem history_buffers_bounded_witness :
    WithinCaps (detect_blink initState (mkEyesWithEar (3/10))).2 :=
  history_buffers_bounded.2.2.1 initState (mkEyesWithEar (3/10))
    ⟨by norm_num [initState], by norm_num [initState], by norm_num [initState],
      by norm_num [initState], by norm_num [initState]⟩

/-- Witness for C10: face region 100×100 with a wide flat left box
(EAR `1/20 < 0.15`) and a tall right box (EAR `0.4`, above the open
threshold): both flags still come out false. -/
theorem low_ear_forces_both_closed_witness :
    (detect_eyes_detailed 100 100 [⟨0, 0, 10, 1⟩, ⟨20, 0, 10, 10⟩]).left_open = false ∧
    (detect_eyes_detailed 100 100 [⟨0, 0, 10, 1⟩, ⟨20, 0, 10, 10⟩]).right_open = false :=
  low_ear_forces_both_closed 100 100 [⟨0, 0, 10, 1⟩, ⟨20, 0, 10, 10⟩]
    (by norm_num)
    (Or.inl (by
      norm_num [detect_eyes_detailed, eyesPre, sortByX, insertByX, earTwoEyes, bboxEar,
        gazeOf, eyesRecord, min_def]))

